import Mathlib

/- Verification of the Whack-A-Mole concurrent actor lifecycle engine (wam.c).

   Shallow embedding of the data model and the operations relevant to the
   lifecycle, scoring, input-dispatch and animation-checkpoint claims.
   C `int`/`long` values are modelled as `Int` (or `Nat` where the source
   value is provably nonnegative, e.g. values of `random()` and `Nat`-clamped
   durations); on the nonnegative operands occurring here, C truncating
   division agrees with both Lean's `Nat` division and `Int` euclidean
   division, so `/` and `%` below coincide with the C operators.
   Thread handles and condition variables carry no data and are omitted;
   a `pthread_cancel` / `pthread_cond_signal` call is modelled as a ghost
   boolean output, and a condition wait is modelled by the sequence of
   values the waited-on field takes at successive wakeups. -/

--========
-- enums (wam.c lines 131-166)

inductive PlayResult
  | WHACK
  | ESCAPE
  | MISFIRE
  | TOOSOON
  | SCAREDOFF
deriving DecidableEq, Repr, Fintype

inductive MoleStatus
  | AVAILABLE
  | ASSIGNED
  | HIDING
  | UP
  | WHACKED
  | EXPIRED
  | SCARED
  | TERMINATING
  | COMPLETE
deriving DecidableEq, Repr, Fintype

inductive AnimationType
  | ANIMHIDING
  | ANIMPOPUP
  | ANIMWHACKED
  | ANIMESCAPED
  | ANIMMISFIRE
  | ANIMMISFIRESCARED
  | ANIMUPSCARED
  | SPLASHPOPUP
  | INSTRPOPUP
  | INSTRSCARED
deriving DecidableEq, Repr

open PlayResult MoleStatus AnimationType

--===========
-- structures (wam.c lines 170-241); `struct timespec` from <time.h>

structure Timespec where
  tv_sec : Int
  tv_nsec : Int
deriving DecidableEq, Repr

def zeroTimespec : Timespec := { tv_sec := 0, tv_nsec := 0 }

/-- Total value of a timespec in nanoseconds. -/
def toNanos (t : Timespec) : Int := t.tv_sec * 1000000000 + t.tv_nsec

/-- wam.c lines 170-183.  The fields `totaltime` and `remainingtime` are
declared in the C struct but never written nor read anywhere in wam.c, so
they are omitted here. -/
structure ScoreSheetRecord where
  mole : Int
  hole : Int
  startscore : Int
  missedscore : Int
  whackedscore : Int
  bonusscore : Int
  penaltyscore : Int
  endscore : Int
  playresult : PlayResult
  selection : Char
deriving DecidableEq, Repr

/-- wam.c lines 185-210 (the debug-only `threadsn` field is omitted). -/
structure AnimationSpec where
  animationtype : AnimationType
  hole : Int
  numholes : Int
  duration : Int
  score1 : Int
  score2 : Int
  syncpoints : Int
  synccount : Int
  mole : Int
deriving DecidableEq, Repr

/-- The all-zero animation spec (`memset(p, 0, ...)`); enum value 0 is
`ANIMHIDING`. -/
def zeroAnimationSpec : AnimationSpec :=
  { animationtype := ANIMHIDING, hole := 0, numholes := 0, duration := 0,
    score1 := 0, score2 := 0, syncpoints := 0, synccount := 0, mole := 0 }

/-- wam.c lines 212-241.  The `thread` and `animthread` handles and the two
condition variables carry no data and are omitted; the signal traffic they
carry is modelled where used. -/
structure MoleCommRecord where
  molestatus : MoleStatus
  displayack : MoleStatus
  threadslot : Int
  mole : Int
  duration : Int
  uptime : Int
  hole : Int
  keystruck : Char
  animspec : AnimationSpec
  animcancelled : Int
  scoreidx : Int
  scaredflag : Int
  scaredtime : Timespec
deriving DecidableEq, Repr

/-- The all-zero record (`memset(p, 0, sizeof(struct MoleCommRecord))`);
enum value 0 is `AVAILABLE` and `(char)0` is the NUL character. -/
def zeroMoleCommRecord : MoleCommRecord :=
  { molestatus := AVAILABLE, displayack := AVAILABLE, threadslot := 0,
    mole := 0, duration := 0, uptime := 0, hole := 0,
    keystruck := Char.ofNat 0, animspec := zeroAnimationSpec,
    animcancelled := 0, scoreidx := 0, scaredflag := 0,
    scaredtime := zeroTimespec }

--==================================
-- set_mole_status (wam.c lines 791-820)

/-- The per-transition precondition asserted by `set_mole_status` (the
`switch (newstatus)` of asserts, wam.c lines 794-804).  First argument is
the row's current status `p->molestatus`, second is `newstatus`. -/
def statusPrecond (cur new : MoleStatus) : Bool :=
  match new with
  | AVAILABLE => cur == COMPLETE
  | ASSIGNED => cur == AVAILABLE
  | HIDING => cur == ASSIGNED
  | UP => cur == HIDING
  | WHACKED => cur == UP
  | EXPIRED => cur == UP
  | SCARED => cur == HIDING || cur == UP
  | TERMINATING => cur == WHACKED || cur == EXPIRED || cur == SCARED
  | COMPLETE => cur == TERMINATING

/-- The statuses for which `set_mole_status` waits for the display thread
acknowledgment (wam.c line 812). -/
def mustWaitForAck (new : MoleStatus) : Bool :=
  new == HIDING || new == UP || new == WHACKED || new == EXPIRED || new == TERMINATING

/-- The `while (p->molestatus != p->displayack) pthread_cond_wait(...)` loop
(wam.c lines 813-818): `obs` is the sequence of values of `p->displayack`
observed at loop entry and at each subsequent wakeup; the loop returns the
first observed value equal to `status`, and does not return (`none`) if no
observation ever equals it. -/
def waitForAck (status : MoleStatus) : List MoleStatus → Option MoleStatus
  | [] => none
  | a :: rest => if a == status then some a else waitForAck status rest

/-- `set_mole_status` (wam.c lines 791-820).  A failed assert aborts the
process (`none`).  `acks` is the sequence of `displayack` values the display
thread publishes at successive wakeups of the condition wait (the value at
loop entry is the record's own `displayack` field).  `none` also models a
call that never returns because the acknowledgment never arrives. -/
def set_mole_status (p : MoleCommRecord) (newstatus : MoleStatus)
    (acks : List MoleStatus) : Option MoleCommRecord :=
  if statusPrecond p.molestatus newstatus then
    let p1 := if newstatus == AVAILABLE then zeroMoleCommRecord else p
    let p2 := { p1 with molestatus := newstatus }
    if mustWaitForAck newstatus then
      match waitForAck newstatus (p2.displayack :: acks) with
      | none => none
      | some a => some { p2 with displayack := a }
    else
      some p2
  else
    none

--==================================
-- the spec-side transition graph (spec.md section 4.3, stated in the claim)

/-- Modelled from the spec (refinement side of claim C1): the edge set of the
section 4.3 lifecycle graph, written in source status names — each pair is
(required predecessor, new status). -/
def specTransitionEdges : List (MoleStatus × MoleStatus) :=
  [(COMPLETE, AVAILABLE), (AVAILABLE, ASSIGNED), (ASSIGNED, HIDING),
   (HIDING, UP), (UP, WHACKED), (UP, EXPIRED), (HIDING, SCARED), (UP, SCARED),
   (WHACKED, TERMINATING), (EXPIRED, TERMINATING), (SCARED, TERMINATING),
   (TERMINATING, COMPLETE)]

/-- A status sequence is a path in the section 4.3 graph. -/
def isGraphPath : List MoleStatus → Prop
  | [] => True
  | [_] => True
  | a :: b :: rest => (a, b) ∈ specTransitionEdges ∧ isGraphPath (b :: rest)

/-- A status sequence in which every consecutive write passed the
`set_mole_status` assert. -/
def statusTraceOk : List MoleStatus → Bool
  | [] => true
  | [_] => true
  | a :: b :: rest => statusPrecond a b && statusTraceOk (b :: rest)

theorem waitForAck_eq (status : MoleStatus) :
    ∀ obs a, waitForAck status obs = some a → a = status := by
  intro obs
  induction obs with
  | nil => intro a h; simp [waitForAck] at h
  | cons x rest ih =>
    intro a h
    simp only [waitForAck] at h
    by_cases hx : (x == status) = true
    · rw [if_pos hx] at h
      cases h
      exact eq_of_beq hx
    · rw [if_neg hx] at h
      exact ih a h

--==================================
-- Claim C1

/-- Claim C1: `set_mole_status(p, newstatus)` requires the row's current
status to be exactly the predecessor given by the section 4.3 graph
(AVAILABLE requires COMPLETE, ASSIGNED requires AVAILABLE, HIDING requires
ASSIGNED, UP requires HIDING, WHACKED and EXPIRED each require UP, SCARED
requires HIDING or UP, TERMINATING requires WHACKED, EXPIRED or SCARED,
COMPLETE requires TERMINATING); a call whose precondition fails aborts, and
consequently every status sequence whose consecutive writes all passed the
assert is a path in that graph. -/
theorem C1_transition_graph :
    (∀ cur new, statusPrecond cur new = true ↔ (cur, new) ∈ specTransitionEdges)
    ∧ (∀ p new acks, statusPrecond p.molestatus new = false →
        set_mole_status p new acks = none)
    ∧ (∀ tr, statusTraceOk tr = true → isGraphPath tr) := by
  refine ⟨by decide, ?_, ?_⟩
  · intro p new acks h
    simp [set_mole_status, h]
  · intro tr
    induction tr with
    | nil => intro _; trivial
    | cons a rest ih =>
      cases rest with
      | nil => intro _; trivial
      | cons b rest2 =>
        intro h
        simp only [statusTraceOk, Bool.and_eq_true] at h
        exact ⟨(by decide : ∀ x y, statusPrecond x y = true →
                  (x, y) ∈ specTransitionEdges) a b h.1, ih h.2⟩

/-- Witness for C1 at concrete inputs. -/
theorem C1_transition_graph_witness :
    (statusPrecond HIDING UP = true ↔ (HIDING, UP) ∈ specTransitionEdges)
    ∧ set_mole_status zeroMoleCommRecord UP [] = none
    ∧ isGraphPath [AVAILABLE, ASSIGNED, HIDING, UP, WHACKED, TERMINATING, COMPLETE] :=
  ⟨C1_transition_graph.1 HIDING UP,
   C1_transition_graph.2.1 zeroMoleCommRecord UP [] (by decide),
   C1_transition_graph.2.2 [AVAILABLE, ASSIGNED, HIDING, UP, WHACKED, TERMINATING, COMPLETE]
     (by decide)⟩

--==================================
-- Claim C2

/-- Claim C2: `set_mole_status` returns only after the acknowledgment mirror
`displayack` equals the newly written status whenever the new status is one
of HIDING, UP, WHACKED, EXPIRED or TERMINATING (re-checking equality around
the condition wait), and it imposes no such wait for any other new status
(AVAILABLE, ASSIGNED, SCARED, COMPLETE): for those the call returns
immediately, independently of any acknowledgment traffic. -/
theorem C2_ack_rendezvous :
    (∀ new, mustWaitForAck new = true ↔
      (new = HIDING ∨ new = UP ∨ new = WHACKED ∨ new = EXPIRED ∨ new = TERMINATING))
    ∧ (∀ p new acks r, set_mole_status p new acks = some r →
        mustWaitForAck new = true → r.molestatus = new ∧ r.displayack = new)
    ∧ (∀ p new acks, mustWaitForAck new = false →
        set_mole_status p new acks = set_mole_status p new []) := by
  refine ⟨by decide, ?_, ?_⟩
  · intro p new acks r hsome hwait
    simp only [set_mole_status] at hsome
    by_cases hpre : statusPrecond p.molestatus new = true
    · rw [if_pos hpre, hwait] at hsome
      simp only [if_true] at hsome
      cases hw : waitForAck new
          (({ (if new == AVAILABLE then zeroMoleCommRecord else p) with
              molestatus := new } : MoleCommRecord).displayack :: acks) with
      | none => rw [hw] at hsome; cases hsome
      | some a =>
        rw [hw] at hsome
        cases hsome
        exact ⟨rfl, waitForAck_eq new _ a hw⟩
    · rw [if_neg hpre] at hsome; cases hsome
  · intro p new acks hwait
    simp [set_mole_status, hwait]

/-- Witness for C2 at concrete inputs: writing UP from HIDING returns with
the mirror equal to UP once the display thread publishes UP, and writing
SCARED returns without consulting the acknowledgment sequence. -/
theorem C2_ack_rendezvous_witness :
    (mustWaitForAck UP = true ↔
      (UP = HIDING ∨ UP = UP ∨ UP = WHACKED ∨ UP = EXPIRED ∨ UP = TERMINATING))
    ∧ (({ zeroMoleCommRecord with molestatus := UP, displayack := UP } :
          MoleCommRecord).molestatus = UP
       ∧ ({ zeroMoleCommRecord with molestatus := UP, displayack := UP } :
          MoleCommRecord).displayack = UP)
    ∧ set_mole_status { zeroMoleCommRecord with molestatus := UP } SCARED [HIDING]
        = set_mole_status { zeroMoleCommRecord with molestatus := UP } SCARED [] :=
  ⟨C2_ack_rendezvous.1 UP,
   C2_ack_rendezvous.2.1 { zeroMoleCommRecord with molestatus := HIDING } UP [UP]
     { zeroMoleCommRecord with molestatus := UP, displayack := UP } (by decide) (by decide),
   C2_ack_rendezvous.2.2 { zeroMoleCommRecord with molestatus := UP } SCARED [HIDING]
     (by decide)⟩

--==================================
-- Claim C9

/-- Claim C9: recycling a row (setting its status to AVAILABLE) is permitted
only when its current status is COMPLETE, and it resets every field of the
control block to zero — score index, embedded animation descriptor, scared
flag and timestamp, struck key, hole, and the acknowledgment mirror — so the
reused row equals the freshly initialized (all-zero) row. -/
theorem C9_recycle_resets :
    (∀ p acks, (set_mole_status p AVAILABLE acks).isSome = true ↔
        p.molestatus = COMPLETE)
    ∧ (∀ p acks, p.molestatus = COMPLETE →
        set_mole_status p AVAILABLE acks = some zeroMoleCommRecord)
    ∧ zeroMoleCommRecord.scoreidx = 0
    ∧ zeroMoleCommRecord.animspec = zeroAnimationSpec
    ∧ zeroMoleCommRecord.scaredflag = 0
    ∧ zeroMoleCommRecord.scaredtime = zeroTimespec
    ∧ zeroMoleCommRecord.keystruck = Char.ofNat 0
    ∧ zeroMoleCommRecord.hole = 0
    ∧ zeroMoleCommRecord.displayack = AVAILABLE
    ∧ zeroMoleCommRecord.molestatus = AVAILABLE := by
  refine ⟨?_, ?_, rfl, rfl, rfl, rfl, rfl, rfl, rfl, rfl⟩
  · intro p acks
    constructor
    · intro h
      by_cases hc : p.molestatus = COMPLETE
      · exact hc
      · exfalso
        have hpre : statusPrecond p.molestatus AVAILABLE = false := by
          simp only [statusPrecond]
          exact beq_eq_false_iff_ne.mpr hc
        simp [set_mole_status, hpre] at h
    · intro hc
      have hpre : statusPrecond p.molestatus AVAILABLE = true := by
        simp [statusPrecond, hc]
      simp [set_mole_status, hpre, mustWaitForAck, zeroMoleCommRecord]
  · intro p acks hc
    have hpre : statusPrecond p.molestatus AVAILABLE = true := by
      simp [statusPrecond, hc]
    simp [set_mole_status, hpre, mustWaitForAck]
    rfl

/-- A concrete COMPLETE row carrying stale data in every resettable field,
used as the C9 witness input. -/
def staleCompleteRow : MoleCommRecord :=
  { molestatus := COMPLETE, displayack := TERMINATING, threadslot := 2,
    mole := 7, duration := 5000, uptime := 2500, hole := 4,
    keystruck := '5',
    animspec := { zeroAnimationSpec with
                  animationtype := ANIMESCAPED
                  syncpoints := 3
                  synccount := 3 },
    animcancelled := 1, scoreidx := 6, scaredflag := 1,
    scaredtime := { tv_sec := 12, tv_nsec := 34 } }

/-- Witness for C9 at a concrete COMPLETE row carrying stale data in every
resettable field. -/
theorem C9_recycle_resets_witness :
    ((set_mole_status staleCompleteRow AVAILABLE []).isSome = true
      ↔ staleCompleteRow.molestatus = COMPLETE)
    ∧ set_mole_status staleCompleteRow AVAILABLE [] = some zeroMoleCommRecord :=
  ⟨C9_recycle_resets.1 staleCompleteRow [],
   C9_recycle_resets.2.1 staleCompleteRow [] rfl⟩

--==================================
-- scoring (wam.c lines 648-754)

def MISSEDMOLESCORE : Int := -10
def MISSEDMOLEMULTIPLIER : Int := 1
def MISSEDMOLECAP : Int := -50
def WHACKEDMOLESCORE : Int := 20
def BONUSPOINTS : List Int := [25, 0, 0, 20, 80]

/-- The scoring state: the `static int missedcount` of `compute_score` and
the append-only `scores` buffer (`numscores` is the list length). -/
structure ScoreState where
  missedcount : Nat
  scores : List ScoreSheetRecord
deriving DecidableEq, Repr

/-- `if (numscores > 0) curscore = scores[numscores-1].endscore` (wam.c
lines 664-666, with `curscore` initialized to 0). -/
def curTotal (st : ScoreState) : Int :=
  match st.scores.getLast? with
  | some r => r.endscore
  | none => 0

/-- `record_results` (wam.c lines 720-754): appends one record and returns
the index of the appended record (`numscores - 1`). -/
def record_results (st : ScoreState) (mole hole : Int) (key : Char)
    (startscore missedscore whackedscore bonusscore penaltyscore endscore : Int)
    (playresult : PlayResult) : ScoreState × Nat :=
  ({ st with scores := st.scores ++
      [{ mole := mole, hole := hole, startscore := startscore,
         missedscore := missedscore, whackedscore := whackedscore,
         bonusscore := bonusscore, penaltyscore := penaltyscore,
         endscore := endscore, playresult := playresult, selection := key }] },
   st.scores.length)

/-- `compute_score` (wam.c lines 654-697).  The `switch (playresult)` sets
the four score components; `missedcount` is incremented exactly on the
ESCAPE/SCAREDOFF branch.  Out-of-range `bonusstage` would be undefined in C;
`getD _ 0` is only reached in-range by the callers modelled here. -/
def compute_score (st : ScoreState) (mole hole : Int) (key : Char)
    (bonusstage : Int) (playresult : PlayResult) : ScoreState × Nat :=
  let curscore := curTotal st
  let missedcount : Nat :=
    match playresult with
    | ESCAPE | SCAREDOFF => st.missedcount + 1
    | _ => st.missedcount
  let missedscore : Int :=
    match playresult with
    | ESCAPE | SCAREDOFF =>
        let ms := (missedcount : Int) * MISSEDMOLESCORE * MISSEDMOLEMULTIPLIER
        let ms := if ms < MISSEDMOLECAP then MISSEDMOLECAP else ms
        if -ms > curscore then -curscore else ms
    | _ => 0
  let whackedscore : Int :=
    match playresult with
    | WHACK => WHACKEDMOLESCORE
    | _ => 0
  let bonusscore : Int :=
    match playresult with
    | WHACK => BONUSPOINTS.getD bonusstage.toNat 0
    | _ => 0
  let penaltyscore : Int := 0
  record_results { st with missedcount := missedcount } mole hole key curscore
    missedscore whackedscore bonusscore penaltyscore
    (curscore + missedscore + whackedscore + bonusscore + penaltyscore) playresult

--==================================
-- Claims C3 and C10

/-- A concrete scoring state with running total 35 after three misses, used
as witness input for the scoring claims. -/
def sampleScoreState : ScoreState :=
  { missedcount := 3,
    scores := [{ mole := 3, hole := 2, startscore := 65, missedscore := -30,
                 whackedscore := 0, bonusscore := 0, penaltyscore := 0,
                 endscore := 35, playresult := ESCAPE,
                 selection := Char.ofNat 0 }] }

theorem getLast?_append_singleton (l : List ScoreSheetRecord)
    (a : ScoreSheetRecord) : (l ++ [a]).getLast? = some a := by
  simp [List.getLast?_append]

/-- Claim C3: for every miss outcome (playresult ESCAPE or SCAREDOFF), with
`previousTotal` the running total before the outcome and `missCount` the
cumulative number of miss outcomes including this one, the appended record's
endscore equals `max 0 (previousTotal - min 50 (10 * missCount))`; in
particular the running total never goes negative from misses. -/
theorem C3_missed_score :
    ∀ (st : ScoreState) (mole hole : Int) (key : Char) (bonusstage : Int)
      (pr : PlayResult), pr = ESCAPE ∨ pr = SCAREDOFF →
      (compute_score st mole hole key bonusstage pr).1.missedcount
          = st.missedcount + 1
      ∧ ∃ r, (compute_score st mole hole key bonusstage pr).1.scores.getLast?
              = some r
          ∧ r.endscore
              = max 0 (curTotal st - min 50 (10 * ((st.missedcount : Int) + 1)))
          ∧ 0 ≤ r.endscore := by
  intro st mole hole key bonusstage pr hpr
  rcases hpr with h | h <;> subst h <;>
    refine ⟨rfl, ?_⟩ <;>
    refine ⟨_, getLast?_append_singleton _ _, ?_, ?_⟩ <;>
    simp only [MISSEDMOLESCORE, MISSEDMOLEMULTIPLIER, MISSEDMOLECAP] <;>
    split <;> split <;> omega

/-- Witness for C3: a fourth consecutive miss starting from a total of 35
clamps the deduction at min 50 40 = 40 and the resulting total at 0. -/
theorem C3_missed_score_witness :
    (compute_score sampleScoreState 4 1 (Char.ofNat 0) 0 ESCAPE).1.missedcount
        = sampleScoreState.missedcount + 1
    ∧ ∃ r, (compute_score sampleScoreState 4 1 (Char.ofNat 0) 0
              ESCAPE).1.scores.getLast? = some r
        ∧ r.endscore = max 0 (curTotal sampleScoreState
            - min 50 (10 * ((sampleScoreState.missedcount : Int) + 1)))
        ∧ 0 ≤ r.endscore :=
  C3_missed_score sampleScoreState 4 1 (Char.ofNat 0) 0 ESCAPE (Or.inl rfl)

/-- Claim C10: for every MISFIRE or TOOSOON outcome, `compute_score` appends
a record whose missedscore, whackedscore, bonusscore and penaltyscore are all
zero and whose endscore equals the running total before the outcome — a
penalty event never changes the player's score. -/
theorem C10_penalty_scoreless :
    ∀ (st : ScoreState) (mole hole : Int) (key : Char) (bonusstage : Int)
      (pr : PlayResult), pr = MISFIRE ∨ pr = TOOSOON →
      (compute_score st mole hole key bonusstage pr).1.scores.length
          = st.scores.length + 1
      ∧ ∃ r, (compute_score st mole hole key bonusstage pr).1.scores.getLast?
              = some r
          ∧ r.missedscore = 0 ∧ r.whackedscore = 0 ∧ r.bonusscore = 0
          ∧ r.penaltyscore = 0 ∧ r.endscore = curTotal st := by
  intro st mole hole key bonusstage pr hpr
  rcases hpr with h | h <;> subst h <;>
    exact ⟨by simp [compute_score, record_results],
           _, getLast?_append_singleton _ _, rfl, rfl, rfl, rfl, by
             show curTotal st + 0 + 0 + 0 + 0 = curTotal st
             omega⟩

/-- Witness for C10: a MISFIRE after a total of 35 appends an all-zero
scoring record leaving the total at 35. -/
theorem C10_penalty_scoreless_witness :
    (compute_score sampleScoreState (-1) 0 '7' 0 MISFIRE).1.scores.length
        = sampleScoreState.scores.length + 1
    ∧ ∃ r, (compute_score sampleScoreState (-1) 0 '7' 0
              MISFIRE).1.scores.getLast? = some r
        ∧ r.missedscore = 0 ∧ r.whackedscore = 0 ∧ r.bonusscore = 0
        ∧ r.penaltyscore = 0 ∧ r.endscore = curTotal sampleScoreState :=
  C10_penalty_scoreless sampleScoreState (-1) 0 '7' 0 MISFIRE (Or.inl rfl)

--==================================
-- input dispatch (wam.c lines 3039-3160) and the mole wakeup (lines 901-966)

def MOLEHOLES : Nat := 9

/-- `memcpy(holekeys, "789456123", ...)` (wam.c line 3255). -/
def holekeys : List Char := ['7', '8', '9', '4', '5', '6', '1', '2', '3']

/-- `holekeys[hole]` for an `int` hole index; the default is unreachable for
the in-range holes produced by `claim_mole_hole`. -/
def holekeyAt (hole : Int) : Char := holekeys.getD hole.toNat (Char.ofNat 0)

/-- The dismissal-eligibility predicate of the input thread's first scan
(wam.c lines 3093-3100): row UP, display-acknowledged UP, its hole's key is
the pressed key, key not already struck, animation started but not ending,
animation not already cancelled. -/
def whackEligible (m : MoleCommRecord) (key : Char) : Bool :=
  m.molestatus == UP && m.displayack == UP && holekeyAt m.hole == key
    && m.keystruck != key && decide (0 < m.animspec.synccount)
    && decide (m.animspec.synccount < m.animspec.syncpoints)
    && m.animcancelled == 0

/-- The near-miss absorption predicate (wam.c line 3115): a recently expired
or whacked mole, or a double strike on an UP mole whose animation ended. -/
def nearMiss (m : MoleCommRecord) (key : Char) : Bool :=
  (m.molestatus == EXPIRED || m.molestatus == WHACKED
      || (m.molestatus == UP
          && m.animspec.synccount == m.animspec.syncpoints))
    && holekeyAt m.hole == key

/-- Per-row result of the input thread's first scan.  `matched` records that
the row took the whack branch: `pthread_cancel` of its animation thread,
`keystruck` set, and `pthread_cond_signal` of its `keycond` (ghost booleans
for the two thread calls).  `absorbed` records the near-miss branch. -/
structure DispatchRowResult where
  row : MoleCommRecord
  matched : Bool
  absorbed : Bool
deriving DecidableEq, Repr

/-- One iteration of the first scan loop (wam.c lines 3091-3121). -/
def dispatchRow (m : MoleCommRecord) (key : Char) : DispatchRowResult :=
  if whackEligible m key then
    { row := { m with animcancelled := 1, keystruck := key },
      matched := true, absorbed := false }
  else if nearMiss m key then
    { row := m, matched := false, absorbed := true }
  else
    { row := m, matched := false, absorbed := false }

/-- One iteration of the misfire loop (wam.c lines 3134-3137): set
`scaredflag` and timestamp `scaredtime` on each HIDING/UP mole. -/
def scareRow (m : MoleCommRecord) (now : Timespec) : MoleCommRecord :=
  if m.molestatus == HIDING || m.molestatus == UP then
    { m with scaredflag := 1, scaredtime := now }
  else m

/-- The misfire kind (wam.c lines 3129-3141): TOOSOON when the key matches a
currently hiding mole's assigned hole, otherwise plain MISFIRE. -/
def misfireType (rows : List MoleCommRecord) (key : Char) : PlayResult :=
  if rows.any (fun m => m.molestatus == HIDING && key == holekeyAt m.hole)
  then TOOSOON else MISFIRE

/-- The misfire hole search (wam.c lines 3145-3150): first index of the key
in `holekeys` (the loop leaves `i = MOLEHOLES` when absent, which is what
`findIdx` returns on a full miss). -/
def misfireHole (key : Char) : Int := (holekeys.findIdx (· == key) : Nat)

/-- Outcome of one recognized-key iteration of the input thread.
`penaltyAppended` is true exactly when the misfire branch ran
`compute_score`. -/
structure DispatchOutcome where
  results : List DispatchRowResult
  rows : List MoleCommRecord
  st : ScoreState
  penaltyAppended : Bool
deriving DecidableEq, Repr

/-- One iteration of the input thread for a pressed key (wam.c lines
3079-3156).  Keys outside `holekeys` are ignored (`continue`): `none`.
Otherwise the first scan runs over every row; if no row set `whackflag`,
the misfire branch frightens every HIDING/UP row and logs one penalty
outcome via `compute_score`. -/
def input_dispatch (rows : List MoleCommRecord) (key : Char) (now : Timespec)
    (st : ScoreState) : Option DispatchOutcome :=
  if holekeys.contains key then
    let results := rows.map (fun m => dispatchRow m key)
    let whackflag := results.any (fun r => r.matched || r.absorbed)
    if whackflag then
      some { results := results, rows := results.map (fun r => r.row),
             st := st, penaltyAppended := false }
    else
      some { results := results,
             rows := (results.map (fun r => r.row)).map (fun m => scareRow m now),
             st := (compute_score st (-1) (misfireHole key) key 0
                     (misfireType rows key)).1,
             penaltyAppended := true }
  else
    none

/-- How the mole thread woke from its dismissal-key wait: a real
`pthread_cond_signal` (`keystruck` set by the signaller) or `ETIMEDOUT`. -/
inductive WakeReason
  | signalled
  | timedout
deriving DecidableEq, Repr

/-- The woken mole thread's outcome decision and scoring call (wam.c lines
912-966): on a real signal it records WHACK when `keystruck` matches its
hole's key and SCAREDOFF otherwise; on timeout it records ESCAPE.  Returns
the new scoring state, the stored `scoreidx`, and the recorded outcome.
(The subsequent terminal `set_mole_status` handshake is modelled by
`set_mole_status`.) -/
def mole_wake_outcome (p : MoleCommRecord) (st : ScoreState) (wk : WakeReason) :
    ScoreState × Nat × PlayResult :=
  match wk with
  | .signalled =>
    if p.keystruck == holekeyAt p.hole then
      let res := compute_score st p.mole p.hole (Char.ofNat (p.hole.toNat + 48))
          (p.animspec.synccount - 1) WHACK
      (res.1, res.2, WHACK)
    else
      let res := compute_score st p.mole p.hole (Char.ofNat 0) 0 SCAREDOFF
      (res.1, res.2, SCAREDOFF)
  | .timedout =>
      let res := compute_score st p.mole p.hole (Char.ofNat 0) 0 ESCAPE
      (res.1, res.2, ESCAPE)

theorem compute_score_appends (st : ScoreState) (mole hole : Int) (key : Char)
    (bonusstage : Int) (pr : PlayResult) :
    (compute_score st mole hole key bonusstage pr).1.scores.length
        = st.scores.length + 1
    ∧ ∃ r, (compute_score st mole hole key bonusstage pr).1.scores.getLast?
            = some r
        ∧ r.playresult = pr := by
  refine ⟨by simp [compute_score, record_results], ?_⟩
  exact ⟨_, getLast?_append_singleton _ _, rfl⟩

--==================================
-- Claim C4

/-- Claim C4: for every recognized key accepted by no row (no row satisfies
the dismissal-eligibility predicate and no near-miss row absorbs it), the
input dispatcher sets the scared flag and a scared timestamp on every row
whose status is HIDING or UP (leaving other rows unchanged), and appends
exactly one penalty record, whose kind is TOOSOON if some HIDING row's hole
is assigned the pressed key and MISFIRE otherwise. -/
theorem C4_misfire_frightens_all :
    ∀ (rows : List MoleCommRecord) (key : Char) (now : Timespec)
      (st : ScoreState),
      holekeys.contains key = true →
      (∀ m ∈ rows, whackEligible m key = false ∧ nearMiss m key = false) →
      ∃ out, input_dispatch rows key now st = some out
        ∧ out.penaltyAppended = true
        ∧ out.rows = rows.map (fun m => scareRow m now)
        ∧ (∀ m : MoleCommRecord,
            (m.molestatus = HIDING ∨ m.molestatus = UP) →
              (scareRow m now).scaredflag = 1 ∧ (scareRow m now).scaredtime = now)
        ∧ (∀ m : MoleCommRecord,
            m.molestatus ≠ HIDING → m.molestatus ≠ UP → scareRow m now = m)
        ∧ out.st.scores.length = st.scores.length + 1
        ∧ (∃ r, out.st.scores.getLast? = some r
            ∧ r.playresult = misfireType rows key
            ∧ (r.playresult = MISFIRE ∨ r.playresult = TOOSOON))
        ∧ (misfireType rows key = TOOSOON ↔
            ∃ m ∈ rows, m.molestatus = HIDING ∧ key = holekeyAt m.hole) := by
  intro rows key now st hkey hnone
  have hdr : ∀ m ∈ rows, dispatchRow m key
      = { row := m, matched := false, absorbed := false } := by
    intro m hm
    simp [dispatchRow, (hnone m hm).1, (hnone m hm).2]
  have hres : rows.map (fun m => dispatchRow m key)
      = rows.map (fun m => { row := m, matched := false, absorbed := false }) :=
    List.map_congr_left hdr
  have hwf : (rows.map (fun m => dispatchRow m key)).any
      (fun r => r.matched || r.absorbed) = false := by
    rw [hres]
    simp
  refine ⟨{ results := rows.map (fun m => dispatchRow m key),
            rows := ((rows.map (fun m => dispatchRow m key)).map
                (fun r => r.row)).map (fun m => scareRow m now),
            st := (compute_score st (-1) (misfireHole key) key 0
                    (misfireType rows key)).1,
            penaltyAppended := true }, ?_, rfl, ?_, ?_, ?_, ?_, ?_, ?_⟩
  · simp only [input_dispatch, hkey, if_true, hwf, Bool.false_eq_true,
      reduceIte]
  · show ((rows.map (fun m => dispatchRow m key)).map (fun r => r.row)).map
        (fun m => scareRow m now) = rows.map (fun m => scareRow m now)
    rw [hres, List.map_map, List.map_map]
    rfl
  · intro m hm
    rcases hm with hm | hm <;> simp [scareRow, hm]
  · intro m h1 h2
    simp [scareRow, h1, h2]
  · exact (compute_score_appends st (-1) (misfireHole key) key 0
      (misfireType rows key)).1
  · obtain ⟨r, hr, hpr⟩ := (compute_score_appends st (-1) (misfireHole key)
      key 0 (misfireType rows key)).2
    refine ⟨r, hr, hpr, ?_⟩
    rw [hpr]
    unfold misfireType
    split <;> simp
  · unfold misfireType
    by_cases hany : rows.any
        (fun m => m.molestatus == HIDING && key == holekeyAt m.hole) = true
    · rw [if_pos hany]
      simp only [List.any_eq_true, Bool.and_eq_true, beq_iff_eq] at hany
      constructor
      · intro _
        obtain ⟨m, hm, h1, h2⟩ := hany
        exact ⟨m, hm, h1, h2⟩
      · intro _
        rfl
    · rw [if_neg hany]
      simp only [List.any_eq_true, Bool.and_eq_true, beq_iff_eq] at hany
      push_neg at hany
      constructor
      · intro h
        cases h
      · intro ⟨m, hm, h1, h2⟩
        exact absurd h2 (hany m hm h1)

/-- A concrete HIDING row in hole 0 (key '7'). -/
def hidingSampleRow : MoleCommRecord :=
  { zeroMoleCommRecord with
    molestatus := HIDING
    displayack := HIDING
    mole := 1 }

/-- A concrete acknowledged UP row in hole 4 (key '5') with a popup
animation in flight. -/
def upSampleRow : MoleCommRecord :=
  { zeroMoleCommRecord with
    molestatus := UP
    displayack := UP
    mole := 2
    hole := 4
    animspec := { zeroAnimationSpec with
                  animationtype := ANIMPOPUP
                  syncpoints := 6
                  synccount := 2 } }

/-- Witness for C4: key '7' with only a HIDING mole in hole 0 and an UP mole
in hole 4 ('5') is accepted by no row; the outcome is one TOOSOON penalty
and both rows frightened. -/
theorem C4_misfire_frightens_all_witness :
    ∃ out, input_dispatch [hidingSampleRow, upSampleRow] '7'
          { tv_sec := 100, tv_nsec := 0 } sampleScoreState = some out
      ∧ out.penaltyAppended = true
      ∧ out.rows = [hidingSampleRow, upSampleRow].map
          (fun m => scareRow m { tv_sec := 100, tv_nsec := 0 })
      ∧ (∀ m : MoleCommRecord,
          (m.molestatus = HIDING ∨ m.molestatus = UP) →
            (scareRow m { tv_sec := 100, tv_nsec := 0 }).scaredflag = 1
            ∧ (scareRow m { tv_sec := 100, tv_nsec := 0 }).scaredtime
                = { tv_sec := 100, tv_nsec := 0 })
      ∧ (∀ m : MoleCommRecord,
          m.molestatus ≠ HIDING → m.molestatus ≠ UP →
            scareRow m { tv_sec := 100, tv_nsec := 0 } = m)
      ∧ out.st.scores.length = sampleScoreState.scores.length + 1
      ∧ (∃ r, out.st.scores.getLast? = some r
          ∧ r.playresult = misfireType [hidingSampleRow, upSampleRow] '7'
          ∧ (r.playresult = MISFIRE ∨ r.playresult = TOOSOON))
      ∧ (misfireType [hidingSampleRow, upSampleRow] '7' = TOOSOON ↔
          ∃ m ∈ [hidingSampleRow, upSampleRow],
            m.molestatus = HIDING ∧ '7' = holekeyAt m.hole) :=
  C4_misfire_frightens_all [hidingSampleRow, upSampleRow] '7'
    { tv_sec := 100, tv_nsec := 0 } sampleScoreState (by decide) (by decide)

--==================================
-- Claim C5

/-- Claim C5: for every recognized key for which exactly one row satisfies
the eligibility predicate (status UP, display-acknowledged UP, its hole's
assigned key equal to the pressed key, key not already matched, animation
synccount strictly between 0 and syncpoints, animation not cancelled): that
row's animation is cancelled and it is marked matched with its wait
signalled (`matched` ghost flag), no other row matches, no penalty record is
appended (the scoring state is returned unchanged), and the woken controller
records exactly one WHACK outcome. -/
theorem C5_unique_whack :
    ∀ (rows : List MoleCommRecord) (key : Char) (now : Timespec)
      (st : ScoreState) (i : Nat) (h : i < rows.length),
      holekeys.contains key = true →
      whackEligible rows[i] key = true →
      (∀ j (hj : j < rows.length), j ≠ i → whackEligible rows[j] key = false) →
      input_dispatch rows key now st
          = some { results := rows.map (fun m => dispatchRow m key),
                   rows := (rows.map (fun m => dispatchRow m key)).map
                             (fun r => r.row),
                   st := st, penaltyAppended := false }
      ∧ dispatchRow rows[i] key
          = { row := { rows[i] with animcancelled := 1, keystruck := key },
              matched := true, absorbed := false }
      ∧ (∀ j (hj : j < rows.length), j ≠ i →
          (dispatchRow rows[j] key).matched = false)
      ∧ (mole_wake_outcome
            { rows[i] with animcancelled := 1, keystruck := key } st
            WakeReason.signalled).2.2 = WHACK
      ∧ (mole_wake_outcome
            { rows[i] with animcancelled := 1, keystruck := key } st
            WakeReason.signalled).1.scores.length = st.scores.length + 1
      ∧ ∃ r, (mole_wake_outcome
                { rows[i] with animcancelled := 1, keystruck := key } st
                WakeReason.signalled).1.scores.getLast? = some r
          ∧ r.playresult = WHACK := by
  intro rows key now st i h hkey heli huniq
  have hmatched : dispatchRow rows[i] key
      = { row := { rows[i] with animcancelled := 1, keystruck := key },
          matched := true, absorbed := false } := by
    simp [dispatchRow, heli]
  have hwf : (rows.map (fun m => dispatchRow m key)).any
      (fun r => r.matched || r.absorbed) = true := by
    apply List.any_eq_true.mpr
    refine ⟨dispatchRow rows[i] key,
      List.mem_map_of_mem _ (List.getElem_mem h), ?_⟩
    rw [hmatched]
    simp
  have hkey2 : holekeyAt rows[i].hole = key := by
    simp only [whackEligible, Bool.and_eq_true, beq_iff_eq] at heli
    exact heli.1.1.1.1.2
  refine ⟨?_, hmatched, ?_, ?_, ?_, ?_⟩
  · simp only [input_dispatch, hkey, if_true, hwf, reduceIte]
  · intro j hj hne
    have hf := huniq j hj hne
    simp only [dispatchRow, hf, Bool.false_eq_true, reduceIte]
    split <;> rfl
  · simp only [mole_wake_outcome, hkey2, beq_self_eq_true, if_true]
  · simp only [mole_wake_outcome, hkey2, beq_self_eq_true, if_true]
    exact (compute_score_appends _ _ _ _ _ _).1
  · simp only [mole_wake_outcome, hkey2, beq_self_eq_true, if_true]
    exact (compute_score_appends _ _ _ _ _ _).2

/-- Witness for C5: key '5' matches exactly the acknowledged UP mole in
hole 4, yielding a cancelled animation, an unchanged scoring state, and one
WHACK record from the woken controller. -/
theorem C5_unique_whack_witness :
    input_dispatch [hidingSampleRow, upSampleRow] '5'
        { tv_sec := 100, tv_nsec := 0 } sampleScoreState
        = some { results := [hidingSampleRow, upSampleRow].map
                   (fun m => dispatchRow m '5'),
                 rows := ([hidingSampleRow, upSampleRow].map
                   (fun m => dispatchRow m '5')).map (fun r => r.row),
                 st := sampleScoreState, penaltyAppended := false }
    ∧ dispatchRow upSampleRow '5'
        = { row := { upSampleRow with animcancelled := 1, keystruck := '5' },
            matched := true, absorbed := false }
    ∧ (∀ j (hj : j < ([hidingSampleRow, upSampleRow] :
          List MoleCommRecord).length), j ≠ 1 →
        (dispatchRow ([hidingSampleRow, upSampleRow][j]) '5').matched = false)
    ∧ (mole_wake_outcome
          { upSampleRow with animcancelled := 1, keystruck := '5' }
          sampleScoreState WakeReason.signalled).2.2 = WHACK
    ∧ (mole_wake_outcome
          { upSampleRow with animcancelled := 1, keystruck := '5' }
          sampleScoreState WakeReason.signalled).1.scores.length
        = sampleScoreState.scores.length + 1
    ∧ ∃ r, (mole_wake_outcome
              { upSampleRow with animcancelled := 1, keystruck := '5' }
              sampleScoreState WakeReason.signalled).1.scores.getLast? = some r
        ∧ r.playresult = WHACK :=
  C5_unique_whack [hidingSampleRow, upSampleRow] '5'
    { tv_sec := 100, tv_nsec := 0 } sampleScoreState 1 (by decide)
    (by decide) (by decide) (by decide)

--==================================
-- animation descriptors and checkpoint writes (wam.c lines 300-309, 2084-2556)

def WhackedAnim : AnimationSpec :=
  { animationtype := ANIMWHACKED, hole := 0, numholes := 9, duration := 1500,
    score1 := 0, score2 := 0, syncpoints := 3, synccount := 0, mole := 0 }

def EscapedAnim : AnimationSpec :=
  { animationtype := ANIMESCAPED, hole := 0, numholes := 9, duration := 1500,
    score1 := 0, score2 := 0, syncpoints := 3, synccount := 0, mole := 0 }

def HidingAnim : AnimationSpec :=
  { animationtype := ANIMHIDING, hole := 0, numholes := 9, duration := 0,
    score1 := 0, score2 := 0, syncpoints := 2, synccount := 0, mole := 0 }

def PopupAnim : AnimationSpec :=
  { animationtype := ANIMPOPUP, hole := 0, numholes := 9, duration := 0,
    score1 := 0, score2 := 0, syncpoints := 6, synccount := 0, mole := 0 }

def MisfireScaredAnim : AnimationSpec :=
  { animationtype := ANIMMISFIRESCARED, hole := 0, numholes := 9,
    duration := 2000, score1 := 0, score2 := 0, syncpoints := 2,
    synccount := 0, mole := 0 }

def HideScaredAnim : AnimationSpec :=
  { animationtype := ANIMUPSCARED, hole := 0, numholes := 9, duration := 2000,
    score1 := 0, score2 := 0, syncpoints := 2, synccount := 0, mole := 0 }

def UpScaredAnim : AnimationSpec :=
  { animationtype := ANIMUPSCARED, hole := 0, numholes := 9, duration := 2000,
    score1 := 0, score2 := 0, syncpoints := 2, synccount := 0, mole := 0 }

def PopupSplash : AnimationSpec :=
  { animationtype := SPLASHPOPUP, hole := 0, numholes := 9, duration := 0,
    score1 := 0, score2 := 0, syncpoints := 2, synccount := 0, mole := 0 }

def PopupInstr : AnimationSpec :=
  { animationtype := INSTRPOPUP, hole := 0, numholes := 9, duration := 0,
    score1 := 0, score2 := 0, syncpoints := 2, synccount := 0, mole := 0 }

def ScaredInstr : AnimationSpec :=
  { animationtype := INSTRSCARED, hole := 0, numholes := 9, duration := 0,
    score1 := 0, score2 := 0, syncpoints := 2, synccount := 0, mole := 0 }

/-- The ordered sequence of values `animation_thread` assigns to
`aspec->synccount` during one pass through its body for each presentation
kind (wam.c lines 2084-2556); for the non-looping kinds this is the entire
execution.  ANIMHIDING: 1 at start, 2 at completion.  ANIMPOPUP (and each
pass of INSTRPOPUP): 1 at start, 2-5 on the descent steps, 6 at blank-out;
SPLASHPOPUP runs only the rise (part 1) and writes nothing further.
ANIMWHACKED and ANIMESCAPED: 1, 2 at the score frame, 3 at blank-out.
ANIMMISFIRE is unimplemented and writes nothing.  ANIMMISFIRESCARED: 1, 2.
ANIMUPSCARED (and the pre-loop write of INSTRSCARED): 1, then 2 after the
loop body (INSTRSCARED never exits its loop, so only the initial 1 is ever
written per pass). -/
def animWrites : AnimationType → List Int
  | ANIMHIDING => [1, 2]
  | ANIMPOPUP => [1, 2, 3, 4, 5, 6]
  | ANIMWHACKED => [1, 2, 3]
  | ANIMESCAPED => [1, 2, 3]
  | ANIMMISFIRE => []
  | ANIMMISFIRESCARED => [1, 2]
  | ANIMUPSCARED => [1, 2]
  | SPLASHPOPUP => [1]
  | INSTRPOPUP => [1, 2, 3, 4, 5, 6]
  | INSTRSCARED => [1]

/-- Strictly increasing check for a write sequence. -/
def strictIncr : List Int → Bool
  | [] => true
  | [_] => true
  | a :: b :: rest => decide (a < b) && strictIncr (b :: rest)

/-- The descriptors `display_thread` launches `animation_thread` with
(wam.c lines 2636-2877): each is paired with the presentation kind it
declares. -/
def displayLaunchedSpecs : List AnimationSpec :=
  [HidingAnim, PopupAnim, WhackedAnim, EscapedAnim, MisfireScaredAnim,
   HideScaredAnim, UpScaredAnim]

/-- The display thread's force-cancel guard on a misfire (wam.c lines
2915-2919): only a hiding/popup presentation that has started but not ended
and is not already cancelled may be cancelled. -/
def misfireCancelEligible (m : MoleCommRecord) : Bool :=
  (m.animspec.animationtype == ANIMHIDING
      || m.animspec.animationtype == ANIMPOPUP)
    && decide (0 < m.animspec.synccount)
    && decide (m.animspec.synccount < m.animspec.syncpoints)
    && m.animcancelled == 0

/-- The force-mark performed by the canceller (wam.c lines 2926-2928):
`animcancelled = 1; synccount = syncpoints`. -/
def forceFinish (m : MoleCommRecord) : MoleCommRecord :=
  { m with animcancelled := 1,
           animspec := { m.animspec with synccount := m.animspec.syncpoints } }

--==================================
-- Claim C6 (corrected)

/-- Counterexample to claim C6 as stated: SPLASHPOPUP is a presentation kind
executed by `animation_thread` (launched by `intro_splashscreen` with the
`PopupSplash` descriptor, wam.c lines 1123-1131), yet its only synccount
write is the initial 1, so the final written value never equals the declared
syncpoints (2) — the presentation is never observable as finished. -/
theorem C6_counterexample :
    PopupSplash.animationtype = SPLASHPOPUP
    ∧ animWrites SPLASHPOPUP = [1]
    ∧ PopupSplash.syncpoints = 2
    ∧ (animWrites SPLASHPOPUP).getLast? ≠ some PopupSplash.syncpoints := by
  refine ⟨rfl, rfl, rfl, ?_⟩
  decide

/-- Claim C6 as amended: for every presentation kind as launched by the
display bridge during play (the seven descriptors of `display_thread`, i.e.
excluding the splash/instruction kinds SPLASHPOPUP, INSTRPOPUP, INSTRSCARED
and the unimplemented ANIMMISFIRE), the sequence of synccount values written
starts at 1 as soon as the presentation begins, is strictly increasing,
never exceeds the descriptor's declared syncpoints, and its final written
value equals syncpoints; force-marking by a canceller (synccount :=
syncpoints) preserves non-decrease because cancellation is only performed
while 0 < synccount < syncpoints. -/
theorem C6_sync_protocol_amended :
    (∀ spec ∈ displayLaunchedSpecs,
      (animWrites spec.animationtype).head? = some 1
      ∧ strictIncr (animWrites spec.animationtype) = true
      ∧ (∀ v ∈ animWrites spec.animationtype, v ≤ spec.syncpoints)
      ∧ (animWrites spec.animationtype).getLast? = some spec.syncpoints)
    ∧ (∀ m : MoleCommRecord, misfireCancelEligible m = true →
        m.animspec.synccount ≤ (forceFinish m).animspec.synccount
        ∧ (forceFinish m).animspec.synccount = m.animspec.syncpoints
        ∧ (forceFinish m).animcancelled = 1) := by
  refine ⟨by decide, ?_⟩
  intro m h
  simp only [misfireCancelEligible, Bool.and_eq_true, decide_eq_true_eq] at h
  refine ⟨?_, rfl, rfl⟩
  show m.animspec.synccount ≤ m.animspec.syncpoints
  exact le_of_lt h.1.2

/-- Witness for C6 (amended) at the popup descriptor and a concrete
cancellable in-flight popup row. -/
theorem C6_sync_protocol_amended_witness :
    ((animWrites PopupAnim.animationtype).head? = some 1
      ∧ strictIncr (animWrites PopupAnim.animationtype) = true
      ∧ (∀ v ∈ animWrites PopupAnim.animationtype, v ≤ PopupAnim.syncpoints)
      ∧ (animWrites PopupAnim.animationtype).getLast?
          = some PopupAnim.syncpoints)
    ∧ (upSampleRow.animspec.synccount
        ≤ (forceFinish upSampleRow).animspec.synccount
      ∧ (forceFinish upSampleRow).animspec.synccount
          = upSampleRow.animspec.syncpoints
      ∧ (forceFinish upSampleRow).animcancelled = 1) :=
  ⟨C6_sync_protocol_amended.1 PopupAnim (by decide),
   C6_sync_protocol_amended.2 upSampleRow (by decide)⟩

--==================================
-- Claim C7 (corrected)

/-- The mole thread's randomized up-time choice (wam.c lines 872-873):
`uptime = (uptime % 5000L + 3000L) * (long)p->duration / 10000L` with
`uptime` initialized from `tsrandom()`.  `random()` is nonnegative and the
duration is clamped to [1000, 15000] by `control_moles`, so `Nat` division
here coincides with C `long` division. -/
def chooseUptime (r d : Nat) : Nat := (r % 5000 + 3000) * d / 10000

/-- Counterexample to claim C7 as stated: at draw r = 0 and cycle duration
d = 1001 ms the formula holds but the chosen up time is 300 ms, strictly
below 30 percent of d (300.3 ms): integer division floors the lower bound.
(d = 1001 is reachable: `control_moles` clamps the duration only to the
range [1000, 15000].) -/
theorem C7_counterexample :
    chooseUptime 0 1001 = (0 % 5000 + 3000) * 1001 / 10000
    ∧ chooseUptime 0 1001 = 300
    ∧ ¬ (3 * 1001 ≤ 10 * chooseUptime 0 1001
         ∧ 10 * chooseUptime 0 1001 ≤ 8 * 1001) := by
  refine ⟨rfl, rfl, ?_⟩
  decide

/-- Claim C7 as amended: for every random draw r ≥ 0 and every cycle
duration d, the controller's chosen up time equals
`((r mod 5000) + 3000) * d / 10000` under integer division; it is at least
`⌊0.3 * d⌋` — within one unit below exact 30 percent of d, which integer
division can undershoot — at most `⌊0.8 * d⌋`, and strictly below 80
percent of d whenever d > 0. -/
theorem C7_uptime_bounds_amended :
    ∀ r d : Nat,
      chooseUptime r d = (r % 5000 + 3000) * d / 10000
      ∧ 3 * d / 10 ≤ chooseUptime r d
      ∧ 3 * d ≤ 10 * chooseUptime r d + 9
      ∧ chooseUptime r d ≤ 8 * d / 10
      ∧ (0 < d → 10 * chooseUptime r d < 8 * d) := by
  intro r d
  have hk : r % 5000 < 5000 := Nat.mod_lt _ (by norm_num)
  have heq30 : 3000 * d / 10000 = 3 * d / 10 := by
    rw [show 3000 * d = 1000 * (3 * d) by ring,
        show (10000 : Nat) = 1000 * 10 by norm_num,
        Nat.mul_div_mul_left _ _ (by norm_num)]
  have heq80 : 8000 * d / 10000 = 8 * d / 10 := by
    rw [show 8000 * d = 1000 * (8 * d) by ring,
        show (10000 : Nat) = 1000 * 10 by norm_num,
        Nat.mul_div_mul_left _ _ (by norm_num)]
  have hlo : 3 * d / 10 ≤ chooseUptime r d := by
    rw [← heq30]
    exact Nat.div_le_div_right (Nat.mul_le_mul_right d (by omega))
  have hhi : chooseUptime r d ≤ 8 * d / 10 := by
    rw [← heq80]
    exact Nat.div_le_div_right (Nat.mul_le_mul_right d (by omega))
  have hmul : chooseUptime r d * 10000 ≤ 7999 * d := by
    calc chooseUptime r d * 10000 ≤ (r % 5000 + 3000) * d :=
          Nat.div_mul_le_self _ _
      _ ≤ 7999 * d := Nat.mul_le_mul_right d (by omega)
  exact ⟨rfl, hlo, by omega, hhi, by omega⟩

/-- Witness for C7 (amended) at r = 4242, d = 2000: up time 1448 ms lies in
the band. -/
theorem C7_uptime_bounds_amended_witness :
    chooseUptime 4242 2000 = (4242 % 5000 + 3000) * 2000 / 10000
    ∧ 3 * 2000 / 10 ≤ chooseUptime 4242 2000
    ∧ 3 * 2000 ≤ 10 * chooseUptime 4242 2000 + 9
    ∧ chooseUptime 4242 2000 ≤ 8 * 2000 / 10
    ∧ (0 < 2000 → 10 * chooseUptime 4242 2000 < 8 * 2000) :=
  C7_uptime_bounds_amended 4242 2000

--==================================
-- Claim C8

/-- The mole thread's absolute-deadline computation (wam.c lines 892-896):
converts `uptime` milliseconds past `starttime` into a `timespec`.  All
operands of `/` and `%` are nonnegative for a normalized start time and a
nonnegative uptime, so euclidean division coincides with C division. -/
def computeWaituntil (starttime : Timespec) (uptime : Int) : Timespec :=
  { tv_sec := starttime.tv_sec
      + (uptime % 1000 * 1000000 + starttime.tv_nsec) / 1000000000
      + uptime / 1000,
    tv_nsec := (uptime % 1000 * 1000000 + starttime.tv_nsec) % 1000000000 }

/-- Claim C8: for every starting timespec with tv_nsec in [0, 10^9) and
every uptime ≥ 0, the computed `waituntil` is a normalized timespec
(tv_nsec in [0, 10^9)) whose total value in nanoseconds equals the start
time plus exactly uptime milliseconds. -/
theorem C8_absolute_deadline :
    ∀ (starttime : Timespec) (uptime : Int),
      0 ≤ starttime.tv_nsec → starttime.tv_nsec < 1000000000 →
      0 ≤ uptime →
      0 ≤ (computeWaituntil starttime uptime).tv_nsec
      ∧ (computeWaituntil starttime uptime).tv_nsec < 1000000000
      ∧ toNanos (computeWaituntil starttime uptime)
          = toNanos starttime + uptime * 1000000 := by
  intro s u h1 h2 h3
  simp only [computeWaituntil, toNanos]
  refine ⟨by omega, by omega, by ring_nf; omega⟩

/-- Witness for C8 at a start time just below a second boundary and a
1500 ms up time. -/
theorem C8_absolute_deadline_witness :
    0 ≤ (computeWaituntil { tv_sec := 1700000000, tv_nsec := 999999999 }
          1500).tv_nsec
    ∧ (computeWaituntil { tv_sec := 1700000000, tv_nsec := 999999999 }
          1500).tv_nsec < 1000000000
    ∧ toNanos (computeWaituntil { tv_sec := 1700000000, tv_nsec := 999999999 }
          1500)
        = toNanos { tv_sec := 1700000000, tv_nsec := 999999999 }
          + 1500 * 1000000 :=
  C8_absolute_deadline { tv_sec := 1700000000, tv_nsec := 999999999 } 1500
    (by norm_num) (by norm_num) (by norm_num)
